import Mathlib

/-!
Verification development for the La Tribu loyalty-analysis pipeline.

The repository has two variants of the same pipeline:
* `analyse_fidelite.py` — DuckDB historical store (namespace `AF` below);
* `analyse_KPI.py` — parquet historical store (namespace `AK` below).

Amounts are modelled as rationals; nullable cells (pandas `NaN` / `NaT`) are
modelled as `Option`.  An "undefined" (NaN) KPI value is `Option.none`.
-/

namespace LaTribu

/-- Calendar date (year, month, day) as parsed by pandas `to_datetime`;
an unparsable cell is `none` at the use sites. -/
structure Date where
  y : Nat
  m : Nat
  d : Nat
deriving DecidableEq, Repr

/-- Month index of a date, mirroring pandas `to_period("M")`: consecutive
calendar months map to consecutive indices, and chronological order of months
is numeric order on the index. -/
def Date.period (dt : Date) : Nat := dt.y * 12 + dt.m

/-- Line-type classification named by the specification
(`PRODUCT_SALE` / `TENDER` / `OTHER`).  The source code never reads such a
column; it is carried as an extra field that every embedded aggregation
ignores, so that claims mentioning it can be stated. -/
inductive LineType where
  | productSale
  | tender
  | other
deriving DecidableEq, Repr

namespace AF

/-- One row of the transactions CSV after `_read_csv_tolerant`
(analyse_fidelite.py): numeric cells that failed `pd.to_numeric` are `none`. -/
structure TxLine where
  ticketNumber : String
  totalAmount : Option ℚ
  label : Option String
  validationDate : Option Date
  organisationId : String
  customerId : Option String
  lineGrossAmount : Option ℚ
  lineCost : Option ℚ
  quantity : Option ℚ
  lineType : LineType
deriving DecidableEq, Repr

/-- Lines of one ticket: the rows sharing a `TicketNumber`
(the `groupby(c_txid)` partition of `_build_fact_from_transactions`). -/
def ticketLines (table : List TxLine) (t : String) : List TxLine :=
  table.filter (fun l => l.ticketNumber == t)

/-- Maximum of a list of parsed cells, as pandas `max` computes it:
`NaN` for an empty list, else the running maximum. -/
def listMaxAF : List ℚ → Option ℚ
  | [] => none
  | v :: vs => some (vs.foldl max v)

/-- Per-ticket `CA_TTC`: `tx.groupby(c_txid)[c_total].max()` — the maximum of
the parsable `TotalAmount` cells of the ticket, `NaN` when none parses
(pandas `max` skips `NaN`). -/
def caTTC (table : List TxLine) (t : String) : Option ℚ :=
  listMaxAF ((ticketLines table t).filterMap (fun l => l.totalAmount))

/-- Per-ticket `CA_HT`: `tx.groupby(c_txid)[c_gross].sum()` — sum of the
parsable `LineGrossAmount` cells of the ticket (pandas `sum` skips `NaN` and
gives `0.0` for an all-`NaN` group). -/
def caHT (table : List TxLine) (t : String) : ℚ :=
  ((ticketLines table t).filterMap (fun l => l.lineGrossAmount)).sum

/-- Per-ticket `Purch_Total_HT`: sum of parsable `lineTotalPurchasingAmount`. -/
def purchHT (table : List TxLine) (t : String) : ℚ :=
  ((ticketLines table t).filterMap (fun l => l.lineCost)).sum

/-- Per-ticket `Qty_Ticket`: when the `Quantity` column exists and holds at
least one parsable value anywhere in the table, the per-ticket sum of parsable
quantities; otherwise the fallback `groupby(c_txid)[c_txid].size()`, i.e. the
number of source lines of the ticket. -/
def qtyTicket (hasQtyCol : Bool) (table : List TxLine) (t : String) : ℚ :=
  if hasQtyCol && table.any (fun l => l.quantity.isSome) then
    ((ticketLines table t).filterMap (fun l => l.quantity)).sum
  else
    ((ticketLines table t).length : ℚ)

/-- Leading-substring test: does the character list start with `COUPON`? -/
def beginsWithCoupon : List Char → Bool
  | 'C' :: 'O' :: 'U' :: 'P' :: 'O' :: 'N' :: _ => true
  | _ => false

/-- Substring test: does the character list contain `COUPON`? -/
def containsCouponChars : List Char → Bool
  | [] => false
  | c :: rest => beginsWithCoupon (c :: rest) || containsCouponChars rest

/-- Test used on each line label: `fillna("").str.upper().str.contains("COUPON")`
— case-insensitive substring containment of `COUPON` (upper-casing per
character, the ASCII case relevant to the marker). -/
def containsCoupon (s : String) : Bool :=
  containsCouponChars (s.data.map Char.toUpper)

/-- Per-ticket `Has_Coupon`: some line of the ticket has a label whose
upper-cased text contains `COUPON` as a substring. -/
def hasCouponT (table : List TxLine) (t : String) : Bool :=
  (ticketLines table t).any (fun l => containsCoupon (l.label.getD ""))

/-- CustomerID cleaning of `_build_fact_from_transactions`:
`astype(str).str.strip().replace(["", "nan", "none", "NaN", "None"], np.nan)`. -/
def cleanCustomer (c : Option String) : Option String :=
  match c with
  | none => none
  | some s =>
    let t := s.trim
    if t = "" ∨ t = "nan" ∨ t = "none" ∨ t = "NaN" ∨ t = "None" then none
    else some t

/-- Context line of a ticket: `drop_duplicates(subset=[c_txid])` keeps the
first occurrence, i.e. the first line of the ticket in file order. -/
def ctxLine (table : List TxLine) (t : String) : Option TxLine :=
  (ticketLines table t).head?

/-- One row of the DuckDB `transactions` table (a persisted ticket). -/
structure Ticket where
  transactionId : String
  validationDate : Option Date
  month : Option Nat
  organisationId : String
  customerId : Option String
  isClient : Bool
  caTTC : Option ℚ
  caHT : ℚ
  purchTotalHT : ℚ
  qtyTicket : ℚ
  hasCoupon : Bool
  caPaidWithCouponsHT : ℚ
  estimatedNetMarginHT : ℚ
deriving DecidableEq, Repr

/-- Ticket built by `_build_fact_from_transactions` for one `TicketNumber`. -/
def mkTicket (hasQtyCol : Bool) (table : List TxLine) (t : String) : Ticket :=
  let ctx := ctxLine table t
  let vd := ctx.bind (fun l => l.validationDate)
  let cust := cleanCustomer (ctx.bind (fun l => l.customerId))
  let ht := caHT table t
  let cost := purchHT table t
  let hc := hasCouponT table t
  { transactionId := t
    validationDate := vd
    month := vd.map Date.period
    organisationId := (ctx.map (fun l => l.organisationId)).getD ""
    customerId := cust
    isClient := cust.isSome
    caTTC := caTTC table t
    caHT := ht
    purchTotalHT := cost
    qtyTicket := qtyTicket hasQtyCol table t
    hasCoupon := hc
    caPaidWithCouponsHT := if hc then ht else 0
    estimatedNetMarginHT := ht - cost }

/-- Distinct ticket identifiers of the upload, in first-occurrence order. -/
def ticketIds (table : List TxLine) : List String :=
  (table.map (fun l => l.ticketNumber)).dedup

/-- The fact table produced by `_build_fact_from_transactions`:
one `Ticket` per distinct `TicketNumber`. -/
def buildFact (hasQtyCol : Bool) (table : List TxLine) : List Ticket :=
  (ticketIds table).map (mkTicket hasQtyCol table)

/-- One row of the DuckDB `coupons` table (`_build_coupon_table` output).
The month columns are derived from the corresponding dates. -/
structure Coupon where
  couponId : String
  organisationId : String
  useDate : Option Date
  emissionDate : Option Date
  monthUse : Option Nat
  monthEmit : Option Nat
  amountInitial : ℚ
  amountRemaining : ℚ
  valueUsedLine : ℚ
deriving DecidableEq, Repr

/-- `upsert_transactions`: insert-only merge — batch rows whose
`TransactionID` already exists in the store are dropped, the rest are
appended after the stored rows. -/
def upsertTransactions (store batch : List Ticket) : List Ticket :=
  store ++ batch.filter (fun t => !(store.any (fun s => s.transactionId == t.transactionId)))

/-- `append_coupons`: `con.append("coupons", cp_df)` — unconditional append,
no key-based deduplication. -/
def appendCoupons (store batch : List Coupon) : List Coupon :=
  store ++ batch

/-- The DuckDB historical store: the transactions table and the coupons table. -/
structure Store where
  txs : List Ticket
  cps : List Coupon
deriving DecidableEq, Repr

/-- One ingestion run of analyse_fidelite.py: `upsert_transactions` on the
built fact rows followed by `append_coupons` on the built coupon rows. -/
def ingest (s : Store) (fact : List Ticket) (cps : List Coupon) : Store :=
  { txs := upsertTransactions s.txs fact, cps := appendCoupons s.cps cps }

/-- First store row carrying a given `TransactionID`. -/
def findTx (store : List Ticket) (id0 : String) : Option Ticket :=
  store.find? (fun t => t.transactionId == id0)

/-! KPI computation (`compute_kpi`), metric by metric.  Every metric is a
function of the two persisted tables and the `(month, OrganisationID)` group
key; a `none` result is a NaN cell of the KPI table. -/

/-- Ticket rows of the `(month, OrganisationID)` KPI group. -/
def grpT (store : List Ticket) (m : Nat) (o : String) : List Ticket :=
  store.filter (fun t => t.month == some m && t.organisationId == o)

/-- Group `CA_HT` (sum). -/
def caHTsum (store : List Ticket) (m : Nat) (o : String) : ℚ :=
  ((grpT store m o).map (fun t => t.caHT)).sum

/-- Group `Transaction (nombre)`: distinct `TransactionID` count. -/
def transactionsN (store : List Ticket) (m : Nat) (o : String) : Nat :=
  (((grpT store m o).map (fun t => t.transactionId)).dedup).length

/-- Group rows with `is_client` set (the row's `CustomerID` was non-null). -/
def clientRows (store : List Ticket) (m : Nat) (o : String) : List Ticket :=
  (grpT store m o).filter (fun t => t.isClient)

/-- Group `Transaction associé à un client (nombre)` (also `TX_client`). -/
def txClientN (store : List Ticket) (m : Nat) (o : String) : Nat :=
  (((clientRows store m o).map (fun t => t.transactionId)).dedup).length

/-- Group `Client`: distinct customers among is-client rows (is-client rows
carry a non-null `CustomerID` by construction of the fact table). -/
def clientsN (store : List Ticket) (m : Nat) (o : String) : Nat :=
  (((clientRows store m o).filterMap (fun t => t.customerId)).dedup).length

/-- Group `Marge net HT avant coupon`: `(CA_HT - Purch_Total_HT).sum()`. -/
def margeAvant (store : List Ticket) (m : Nat) (o : String) : ℚ :=
  ((grpT store m o).map (fun t => t.caHT - t.purchTotalHT)).sum

/-- Group `CA paid with coupons`. -/
def caPaidSum (store : List Ticket) (m : Nat) (o : String) : ℚ :=
  ((grpT store m o).map (fun t => t.caPaidWithCouponsHT)).sum

/-- Coupon rows counted as used in the group:
`dropna(subset=["UseDate"])` grouped by `(month_use, OrganisationID)`. -/
def usedRows (cstore : List Coupon) (m : Nat) (o : String) : List Coupon :=
  cstore.filter (fun c => c.useDate.isSome && c.monthUse == some m && c.organisationId == o)

/-- Coupon rows counted as emitted in the group:
`dropna(subset=["EmissionDate"])` grouped by `(month_emit, OrganisationID)`. -/
def emitRows (cstore : List Coupon) (m : Nat) (o : String) : List Coupon :=
  cstore.filter (fun c => c.emissionDate.isSome && c.monthEmit == some m && c.organisationId == o)

/-- KPI cell `Montant coupons utilisé`: NaN when the left merge finds no used
coupon row for the group, else the sum of `Value_Used_Line`. -/
def montantUtiliseOpt (cstore : List Coupon) (m : Nat) (o : String) : Option ℚ :=
  match usedRows cstore m o with
  | [] => none
  | c :: rest => some (((c :: rest).map (fun x => x.valueUsedLine)).sum)

/-- KPI cell `Montant coupons émis`: NaN when the group has no emitted coupon
row, else the sum of `Amount_Initial`. -/
def montantEmisOpt (cstore : List Coupon) (m : Nat) (o : String) : Option ℚ :=
  match emitRows cstore m o with
  | [] => none
  | c :: rest => some (((c :: rest).map (fun x => x.amountInitial)).sum)

/-- KPI cell `Coupon utilisé`: NaN when the group has no used coupon row, else
the distinct `CouponID` count. -/
def couponUtiliseOpt (cstore : List Coupon) (m : Nat) (o : String) : Option Nat :=
  match usedRows cstore m o with
  | [] => none
  | c :: rest => some ((((c :: rest).map (fun x => x.couponId)).dedup).length)

/-- KPI cell `Coupon émis`: NaN when the group has no emitted coupon row, else
the distinct `CouponID` count. -/
def couponEmisOpt (cstore : List Coupon) (m : Nat) (o : String) : Option Nat :=
  match emitRows cstore m o with
  | [] => none
  | c :: rest => some ((((c :: rest).map (fun x => x.couponId)).dedup).length)

/-- KPI cell `Marge net HT après coupon`:
`Marge avant - Montant coupons utilisé.fillna(0)`. -/
def margeApres (store : List Ticket) (cstore : List Coupon) (m : Nat) (o : String) : ℚ :=
  margeAvant store m o - (montantUtiliseOpt cstore m o).getD 0

/-- KPI cell `Taux association client`:
`np.where(Transactions > 0, TX_client / Transactions, nan)`. -/
def tauxAssoc (store : List Ticket) (m : Nat) (o : String) : Option ℚ :=
  if 0 < transactionsN store m o then
    some ((txClientN store m o : ℚ) / (transactionsN store m o : ℚ))
  else none

/-- KPI cell `Recurrence`: `np.where(Client > 0, TX_client / Client, nan)`;
NaN as well when the group has no is-client row at all (left merge). -/
def recurrenceKPI (store : List Ticket) (m : Nat) (o : String) : Option ℚ :=
  if 0 < clientsN store m o then
    some ((txClientN store m o : ℚ) / (clientsN store m o : ℚ))
  else none

/-- KPI cell `Taux de marge HT avant coupon`:
`np.where(CA_HT > 0, Marge avant / CA_HT, nan)`. -/
def tauxMargeAvant (store : List Ticket) (m : Nat) (o : String) : Option ℚ :=
  if 0 < caHTsum store m o then some (margeAvant store m o / caHTsum store m o) else none

/-- KPI cell `Taux de marge HT après coupons`:
`np.where(CA_HT > 0, Marge après / CA_HT, nan)`. -/
def tauxMargeApres (store : List Ticket) (cstore : List Coupon) (m : Nat) (o : String) :
    Option ℚ :=
  if 0 < caHTsum store m o then some (margeApres store cstore m o / caHTsum store m o) else none

/-- KPI cell `Taux d'utilisation des bons en montant`:
`np.where(Montant émis > 0, Montant utilisé / Montant émis, nan)` — a NaN
numerator (no used row) propagates to NaN. -/
def tauxBonsMontant (cstore : List Coupon) (m : Nat) (o : String) : Option ℚ :=
  match montantEmisOpt cstore m o with
  | none => none
  | some e => if 0 < e then (montantUtiliseOpt cstore m o).map (fun u => u / e) else none

/-- KPI cell `Taux d'utilisation des bons en quantité`:
`np.where(Coupon émis > 0, Coupon utilisé / Coupon émis, nan)`. -/
def tauxBonsQte (cstore : List Coupon) (m : Nat) (o : String) : Option ℚ :=
  match couponEmisOpt cstore m o with
  | none => none
  | some e =>
    if 0 < e then (couponUtiliseOpt cstore m o).map (fun u => (u : ℚ) / (e : ℚ)) else none

/-- KPI cell `Taux de CA généré par les bons sur CA HT`:
`np.where(CA_HT > 0, CA paid with coupons / CA_HT, nan)`. -/
def tauxCAbons (store : List Ticket) (m : Nat) (o : String) : Option ℚ :=
  if 0 < caHTsum store m o then some (caPaidSum store m o / caHTsum store m o) else none

/-- KPI cell `Voucher_share`: copied from the previous ratio by the code. -/
def voucherShare (store : List Ticket) (m : Nat) (o : String) : Option ℚ :=
  tauxCAbons store m o

/-- KPI cell `Panier moyen HT`:
`np.where(Transactions > 0, CA_HT / Transactions, nan)`. -/
def panierMoyenHT (store : List Ticket) (m : Nat) (o : String) : Option ℚ :=
  if 0 < transactionsN store m o then
    some (caHTsum store m o / (transactionsN store m o : ℚ))
  else none

/-- Group rows without an identified customer. -/
def nonClientRows (store : List Ticket) (m : Nat) (o : String) : List Ticket :=
  (grpT store m o).filter (fun t => !t.isClient)

/-- Distinct transaction count of the non-client subgroup. -/
def txNonClientN (store : List Ticket) (m : Nat) (o : String) : Nat :=
  (((nonClientRows store m o).map (fun t => t.transactionId)).dedup).length

/-- KPI cell `Panier moyen client`: NaN when the `is_client = True` subgroup is
absent or its transaction count is zero, else its `CA_HT / TX`. -/
def panierClient (store : List Ticket) (m : Nat) (o : String) : Option ℚ :=
  if 0 < txClientN store m o then
    some ((((clientRows store m o).map (fun t => t.caHT)).sum) / (txClientN store m o : ℚ))
  else none

/-- KPI cell `Panier moyen non client`. -/
def panierNonClient (store : List Ticket) (m : Nat) (o : String) : Option ℚ :=
  if 0 < txNonClientN store m o then
    some ((((nonClientRows store m o).map (fun t => t.caHT)).sum) / (txNonClientN store m o : ℚ))
  else none

/-- Group rows with `Has_Coupon` set. -/
def avecCouponRows (store : List Ticket) (m : Nat) (o : String) : List Ticket :=
  (grpT store m o).filter (fun t => t.hasCoupon)

/-- Group rows without `Has_Coupon`. -/
def sansCouponRows (store : List Ticket) (m : Nat) (o : String) : List Ticket :=
  (grpT store m o).filter (fun t => !t.hasCoupon)

/-- Distinct transaction count of the with-coupon subgroup. -/
def txAvecN (store : List Ticket) (m : Nat) (o : String) : Nat :=
  (((avecCouponRows store m o).map (fun t => t.transactionId)).dedup).length

/-- Distinct transaction count of the without-coupon subgroup. -/
def txSansN (store : List Ticket) (m : Nat) (o : String) : Nat :=
  (((sansCouponRows store m o).map (fun t => t.transactionId)).dedup).length

/-- KPI cell `Panier moyen avec coupon`. -/
def panierAvec (store : List Ticket) (m : Nat) (o : String) : Option ℚ :=
  if 0 < txAvecN store m o then
    some ((((avecCouponRows store m o).map (fun t => t.caHT)).sum) / (txAvecN store m o : ℚ))
  else none

/-- KPI cell `Panier moyen sans coupon`. -/
def panierSans (store : List Ticket) (m : Nat) (o : String) : Option ℚ :=
  if 0 < txSansN store m o then
    some ((((sansCouponRows store m o).map (fun t => t.caHT)).sum) / (txSansN store m o : ℚ))
  else none

/-! Cohort retention (`compute_kpi`, rétention block). -/

/-- Distinct customers of the `(organisation, month)` group of is-client rows
(one `CustSet` cell). -/
def custSet (store : List Ticket) (o : String) (m : Nat) : List String :=
  (((store.filter (fun t => t.isClient && t.organisationId == o && t.month == some m)).filterMap
      (fun t => t.customerId)).dedup)

/-- Months for which the organisation has an is-client row — the rows of
`cust_sets` belonging to this organisation. -/
def activeMonths (store : List Ticket) (o : String) : List Nat :=
  (((store.filter (fun t => t.isClient && t.organisationId == o)).filterMap
      (fun t => t.month)).dedup)

/-- Retention value of one `cust_sets` row: `|Prev ∩ Cur| / |Prev|` when the
previous set is nonempty, NaN otherwise. -/
def retRate (prev cur : List String) : Option ℚ :=
  if 0 < prev.length then
    some (((prev.filter (fun c => cur.contains c)).length : ℚ) / (prev.length : ℚ))
  else none

/-- Walk of the chronologically sorted `cust_sets` rows of one organisation,
carrying the previous row's customer set (the `shift(1)`); returns the
retention cell of the row whose month is `m`. -/
def retentionScan (store : List Ticket) (o : String) :
    List Nat → Option (List String) → Nat → Option ℚ
  | [], _, _ => none
  | mo :: rest, prev, m =>
    if mo = m then
      match prev with
      | none => none
      | some p => retRate p (custSet store o mo)
    else retentionScan store o rest (some (custSet store o mo)) m

/-- KPI cell `Retention_rate` of analyse_fidelite.py: the organisation's
`cust_sets` rows are sorted by the month's timestamp (numeric chronological
order), each row is paired with its predecessor by `shift(1)`, and the rate of
the row of month `m` is returned (NaN when the group does not exist). -/
def retentionAF (store : List Ticket) (o : String) (m : Nat) : Option ℚ :=
  retentionScan store o (List.insertionSort (fun a b => a ≤ b) (activeMonths store o)) none m

/-- Retention exactly as the claim words it, for comparison with the code:
`S(M-1)` is the customer set of the immediately preceding calendar month, and
the rate is `|S(M-1) ∩ S(M)| / |S(M-1)|`, NaN when `S(M-1)` is empty. -/
def retentionSpec (store : List Ticket) (o : String) (m : Nat) : Option ℚ :=
  retRate (custSet store o (m - 1)) (custSet store o m)

end AF

namespace AK

/-- One row of the parquet `transactions` store of analyse_KPI.py (the mapped
canonical columns; numeric cells were `fillna(0.0)`, so they are plain
rationals; `CustomerID` keeps its null). -/
structure Row where
  transactionId : String
  validationDate : Option Date
  organisationId : String
  customerId : Option String
  productId : String
  label : String
  caTTC : ℚ
  caHT : ℚ
  purchTotalHT : ℚ
  qtyTicket : ℚ
deriving DecidableEq, Repr

/-- `drop_duplicates(subset=["TransactionID"], keep="last")`: a row is kept
iff no later row shares its `TransactionID`. -/
def dedupKeepLast : List Row → List Row
  | [] => []
  | r :: rs =>
    if rs.any (fun x => x.transactionId == r.transactionId) then dedupKeepLast rs
    else r :: dedupKeepLast rs

/-- Transactions merge of analyse_KPI.py: drop upload rows with an unparsable
`ValidationDate`, concatenate the stored history with the upload, keep the
last row per `TransactionID`, persist the result. -/
def ingestTx (hist upload : List Row) : List Row :=
  dedupKeepLast (hist ++ upload.filter (fun r => r.validationDate.isSome))

/-- One row of the parquet `coupons` store of analyse_KPI.py. -/
structure CouponAK where
  couponId : String
  organisationId : String
  emissionDate : Option Date
  useDate : Option Date
  amountInitial : ℚ
  amountRemaining : ℚ
  valueUsedLine : ℚ
deriving DecidableEq, Repr

/-- Coupon persistence of analyse_KPI.py: `save_parquet(cp, CP_PATH)` — the
stored coupon table is overwritten with the upload; the previous contents are
not read. -/
def ingestCoupons (_hist upload : List CouponAK) : List CouponAK :=
  upload

/-- Last row of the list carrying the given `TransactionID`, if any. -/
def lastWithId (t : String) : List Row → Option Row
  | [] => none
  | r :: rs =>
    match lastWithId t rs with
    | some x => some x
    | none => if r.transactionId == t then some r else none

/-- First stored row with a given `TransactionID`. -/
def findRow (store : List Row) (t : String) : Option Row :=
  store.find? (fun r => r.transactionId == t)

/-- Per-ticket `CA_TTC_ticket`:
`df.groupby("TransactionID")["CA_TTC"].transform("sum")` on the persisted
table — the sum of the stored `CA_TTC` cells of the ticket's rows. -/
def caTTCticket (store : List Row) (t : String) : ℚ :=
  ((store.filter (fun r => r.transactionId == t)).map (fun r => r.caTTC)).sum

/-- Month of a stored row. -/
def monthOf (r : Row) : Option Nat :=
  r.validationDate.map Date.period

/-- `ticket_client` membership: `CustomerID` present and not the empty string. -/
def isClientRow (r : Row) : Bool :=
  match r.customerId with
  | none => false
  | some s => s != ""

/-- The `ticket_client` rows of the store. -/
def ticketClient (store : List Row) : List Row :=
  store.filter isClientRow

/-- `first_month` of a customer: the minimum month over the customer's
`ticket_client` rows (the code minimises the zero-padded `YYYY-MM` strings,
whose order is the numeric month order). -/
def firstMonthAK (store : List Row) (c : String) : Option Nat :=
  ((((ticketClient store).filter (fun r => r.customerId == some c)).filterMap monthOf)).min?

/-- `ticket_client` rows of the `(month, OrganisationID)` group. -/
def grpClientAK (store : List Row) (m : Nat) (o : String) : List Row :=
  (ticketClient store).filter (fun r => monthOf r == some m && r.organisationId == o)

/-- KPI cell `Nouveau_client` of analyse_KPI.py:
`("first_month", lambda s: (s == s.name[0]).sum())` — the number of group ROWS
whose customer's first month equals the group month (a row count). -/
def nouveauAK (store : List Row) (m : Nat) (o : String) : Nat :=
  ((grpClientAK store m o).filter (fun r =>
      match r.customerId with
      | none => false
      | some c => firstMonthAK store c == some m)).length

/-- KPI cell `Clients`: distinct customers of the group. -/
def clientsAK (store : List Row) (m : Nat) (o : String) : Nat :=
  ((((grpClientAK store m o).filterMap (fun r => r.customerId))).dedup).length

/-- KPI cell `Client_qui_reviennent`: `Clients - Nouveau_client` (an integer —
the subtraction can go negative). -/
def returningAK (store : List Row) (m : Nat) (o : String) : Int :=
  (clientsAK store m o : Int) - (nouveauAK store m o : Int)

/-- Count of distinct new customers of the group, as the claim words it: the
customers with a group row whose globally-earliest month equals `m`. -/
def nouveauDistinctSpec (store : List Row) (m : Nat) (o : String) : Nat :=
  ((((grpClientAK store m o).filter (fun r =>
      match r.customerId with
      | none => false
      | some c => firstMonthAK store c == some m)).filterMap
        (fun r => r.customerId)).dedup).length

end AK

end LaTribu

open LaTribu

/-! ## Helper lemmas about the store operations -/

/-- After an upsert, every id of the batch is present in the store. -/
theorem AF_upsert_mem_id (s b : List AF.Ticket) (t : AF.Ticket) (ht : t ∈ b) :
    (AF.upsertTransactions s b).any (fun x => x.transactionId == t.transactionId) = true := by
  unfold AF.upsertTransactions
  rw [List.any_append]
  by_cases h : s.any (fun x => x.transactionId == t.transactionId) = true
  · rw [h]; rfl
  · have hf : s.any (fun x => x.transactionId == t.transactionId) = false :=
      Bool.eq_false_iff.mpr h
    have hmem : t ∈ b.filter (fun u => !(s.any (fun x => x.transactionId == u.transactionId))) :=
      List.mem_filter.mpr ⟨ht, by rw [hf]; rfl⟩
    have hany : (b.filter (fun u => !(s.any (fun x => x.transactionId == u.transactionId)))).any
        (fun x => x.transactionId == t.transactionId) = true :=
      List.any_eq_true.mpr ⟨t, hmem, by simp⟩
    rw [hany, Bool.or_true]

/-- An upsert whose batch ids are all already present does nothing. -/
theorem AF_upsert_eq_self (s b : List AF.Ticket)
    (h : ∀ t ∈ b, s.any (fun x => x.transactionId == t.transactionId) = true) :
    AF.upsertTransactions s b = s := by
  unfold AF.upsertTransactions
  have hnil : b.filter (fun t => !(s.any (fun x => x.transactionId == t.transactionId))) = [] :=
    List.filter_eq_nil_iff.mpr (fun t ht => by simp [h t ht])
  rw [hnil, List.append_nil]

/-- Upserting the same batch twice equals upserting it once. -/
theorem AF_upsert_idem (s b : List AF.Ticket) :
    AF.upsertTransactions (AF.upsertTransactions s b) b = AF.upsertTransactions s b :=
  AF_upsert_eq_self _ b (fun t ht => AF_upsert_mem_id s b t ht)

/-! ## Claim C1 -/

/-- Ticket batch of the claim C1 example run (one ticket, 2024-01, "S1"). -/
def c1ticket : AF.Ticket :=
  { transactionId := "T1", validationDate := some ⟨2024, 1, 5⟩, month := some 24289
    organisationId := "S1", customerId := some "A", isClient := true
    caTTC := some 50, caHT := 40, purchTotalHT := 25, qtyTicket := 2
    hasCoupon := true, caPaidWithCouponsHT := 40, estimatedNetMarginHT := 15 }

/-- Coupon batch of the claim C1 example run (used in 2024-01 at "S1" for 30). -/
def c1coupon : AF.Coupon :=
  { couponId := "C1", organisationId := "S1", useDate := some ⟨2024, 1, 10⟩
    emissionDate := some ⟨2023, 12, 1⟩, monthUse := some 24289, monthEmit := some 24288
    amountInitial := 50, amountRemaining := 20, valueUsedLine := 30 }

/-- Claim C1 is false on the code: ingesting the same pair of built batches
twice does not leave the historical store and the KPI output unchanged — the
coupons table gains a second copy of the coupon batch (`append_coupons` has no
dedup) and the KPI cell `Montant coupons utilisé` doubles from 30 to 60. -/
theorem C1_counterexample :
    (AF.ingest (AF.ingest ⟨[], []⟩ [c1ticket] [c1coupon]) [c1ticket] [c1coupon]).cps ≠
        (AF.ingest ⟨[], []⟩ [c1ticket] [c1coupon]).cps ∧
      AF.montantUtiliseOpt
          (AF.ingest (AF.ingest ⟨[], []⟩ [c1ticket] [c1coupon]) [c1ticket] [c1coupon]).cps
          24289 "S1" ≠
        AF.montantUtiliseOpt (AF.ingest ⟨[], []⟩ [c1ticket] [c1coupon]).cps 24289 "S1" := by
  constructor
  · decide
  · norm_num [AF.ingest, AF.appendCoupons, AF.montantUtiliseOpt, AF.usedRows, c1coupon]

/-- Claim C1 (amended): running the ingestion twice on the same built batches
yields the same transactions table as running it once (the ticket upsert is
idempotent), but the coupons table receives a second copy of the coupon batch,
so coupon-derived KPI cells can differ. -/
theorem C1_amended (s : AF.Store) (fact : List AF.Ticket) (cps : List AF.Coupon) :
    (AF.ingest (AF.ingest s fact cps) fact cps).txs = (AF.ingest s fact cps).txs ∧
      (AF.ingest (AF.ingest s fact cps) fact cps).cps = (AF.ingest s fact cps).cps ++ cps :=
  ⟨AF_upsert_idem s.txs fact, rfl⟩

/-! ## Claim C4 -/

/-- Helper: in a list with pairwise-distinct coupon ids, filtering by the id
of a member yields exactly that member. -/
theorem AK_nodup_filter_eq (u : List AK.CouponAK)
    (hnd : (u.map (fun c => c.couponId)).Nodup) :
    ∀ c ∈ u, u.filter (fun x => x.couponId == c.couponId) = [c] := by
  induction u with
  | nil => intro c hc; cases hc
  | cons a rest ih =>
    intro c hc
    rw [List.map_cons, List.nodup_cons] at hnd
    rcases List.mem_cons.mp hc with rfl | hcr
    · rw [List.filter_cons_of_pos (by simp)]
      have hnil : rest.filter (fun x => x.couponId == c.couponId) = [] := by
        refine List.filter_eq_nil_iff.mpr ?_
        intro x hx hbeq
        rw [beq_iff_eq] at hbeq
        exact hnd.1 (List.mem_map.mpr ⟨x, hx, hbeq⟩)
      rw [hnil]
    · have hne : (a.couponId == c.couponId) = false := by
        refine Bool.eq_false_iff.mpr ?_
        intro hbeq
        rw [beq_iff_eq] at hbeq
        exact hnd.1 (hbeq ▸ List.mem_map.mpr ⟨c, hcr, rfl⟩)
      rw [List.filter_cons_of_neg (by simp [hne])]
      exact ih hnd.2 c hcr

/-- Stored coupon of the claim C4 example (full remaining balance). -/
def c4old : AF.Coupon :=
  { couponId := "C1", organisationId := "S1", useDate := none
    emissionDate := some ⟨2023, 12, 1⟩, monthUse := none, monthEmit := some 24288
    amountInitial := 50, amountRemaining := 50, valueUsedLine := 0 }

/-- Re-uploaded coupon of the claim C4 example (balance dropped to 20). -/
def c4new : AF.Coupon :=
  { couponId := "C1", organisationId := "S1", useDate := some ⟨2024, 1, 10⟩
    emissionDate := some ⟨2023, 12, 1⟩, monthUse := some 24289, monthEmit := some 24288
    amountInitial := 50, amountRemaining := 20, valueUsedLine := 30 }

/-- Stored coupon of the claim C4 example in the parquet variant. -/
def c4akOld : AK.CouponAK :=
  { couponId := "C1", organisationId := "S1", emissionDate := some ⟨2023, 12, 1⟩
    useDate := none, amountInitial := 50, amountRemaining := 50, valueUsedLine := 0 }

/-- Re-uploaded coupon of the claim C4 example in the parquet variant. -/
def c4akNew : AK.CouponAK :=
  { couponId := "C1", organisationId := "S1", emissionDate := some ⟨2023, 12, 1⟩
    useDate := some ⟨2024, 1, 10⟩, amountInitial := 50, amountRemaining := 20
    valueUsedLine := 30 }

/-- Claim C4 is false on the code: in the DuckDB variant, re-ingesting a
coupon whose `CouponID` is already stored does not replace the stored record —
`append_coupons` appends, so the store ends with two records for that id, and
the old `Amount_Remaining` is still present. -/
theorem C4_counterexample :
    ((AF.appendCoupons [c4old] [c4new]).filter (fun c => c.couponId == "C1")).length ≠ 1 ∧
      c4old ∈ AF.appendCoupons [c4old] [c4new] := by
  constructor
  · decide
  · decide

/-- Claim C4 (amended): the DuckDB variant appends coupon batches with no
key-based dedup, so re-ingesting a coupon id adds a record per batch
occurrence; the parquet variant overwrites the whole coupon store with the
upload, so after ingestion the store is exactly the upload — when the upload
has pairwise-distinct coupon ids it holds exactly one record per uploaded
coupon id, carrying the upload's (newest) `Amount_Remaining`, and previously
stored coupons absent from the upload are dropped. -/
theorem C4_amended :
    (∀ (s b : List AF.Coupon) (i : String),
        ((AF.appendCoupons s b).filter (fun c => c.couponId == i)).length =
          (s.filter (fun c => c.couponId == i)).length +
            (b.filter (fun c => c.couponId == i)).length) ∧
      ∀ (h u : List AK.CouponAK), (u.map (fun c => c.couponId)).Nodup →
        ∀ c ∈ u, (AK.ingestCoupons h u).filter (fun x => x.couponId == c.couponId) = [c] := by
  constructor
  · intro s b i
    rw [AF.appendCoupons, List.filter_append, List.length_append]
  · intro h u hnd c hc
    exact AK_nodup_filter_eq u hnd c hc

/-- Claim C4 amended-theorem witness: the parquet-variant conclusion evaluated
on the concrete example upload. -/
theorem C4_amended_witness :
    (AK.ingestCoupons [c4akOld] [c4akNew]).filter
        (fun x => x.couponId == c4akNew.couponId) = [c4akNew] :=
  C4_amended.2 [c4akOld] [c4akNew] (by decide) c4akNew (by decide)

/-! ## Claim C5 -/

/-- Helper: `lastWithId` is `none` exactly when no row carries the id. -/
theorem AK_lastWithId_none (t : String) (rows : List AK.Row) :
    AK.lastWithId t rows = none ↔ ∀ x ∈ rows, x.transactionId ≠ t := by
  induction rows with
  | nil => simp [AK.lastWithId]
  | cons r rs ih =>
    rw [AK.lastWithId, List.forall_mem_cons]
    cases hl : AK.lastWithId t rs with
    | some x =>
      constructor
      · intro h0; cases h0
      · rintro ⟨_, h2⟩
        have hnone := ih.mpr h2
        rw [hl] at hnone
        cases hnone
    | none =>
      by_cases hb : r.transactionId = t
      · rw [if_pos (beq_iff_eq.mpr hb)]
        constructor
        · intro h0; cases h0
        · rintro ⟨h1, _⟩; exact absurd hb h1
      · rw [if_neg (fun hc => hb (beq_iff_eq.mp hc))]
        constructor
        · intro _; exact ⟨hb, ih.mp hl⟩
        · intro _; rfl

/-- Helper: keeping the last occurrence per `TransactionID` leaves exactly the
last row of the list with a given id. -/
theorem AK_dedup_filter (t : String) (rows : List AK.Row) :
    (AK.dedupKeepLast rows).filter (fun r => r.transactionId == t) =
      (AK.lastWithId t rows).toList := by
  induction rows with
  | nil => rfl
  | cons r rs ih =>
    by_cases h : rs.any (fun x => x.transactionId == r.transactionId) = true
    · rw [show AK.dedupKeepLast (r :: rs) = AK.dedupKeepLast rs from by
        rw [AK.dedupKeepLast, if_pos h]]
      rw [ih, AK.lastWithId]
      cases hl : AK.lastWithId t rs with
      | some x => rfl
      | none =>
        have hr : r.transactionId ≠ t := by
          intro hrt
          obtain ⟨x, hx, hxr⟩ := List.any_eq_true.mp h
          rw [beq_iff_eq] at hxr
          exact (AK_lastWithId_none t rs).mp hl x hx (hxr.trans hrt)
        rw [if_neg (fun hc => hr (beq_iff_eq.mp hc))]
    · rw [show AK.dedupKeepLast (r :: rs) = r :: AK.dedupKeepLast rs from by
        rw [AK.dedupKeepLast, if_neg h]]
      have hall : ∀ x ∈ rs, x.transactionId ≠ r.transactionId := by
        intro x hx hxr
        exact h (List.any_eq_true.mpr ⟨x, hx, beq_iff_eq.mpr hxr⟩)
      rw [List.filter_cons, ih, AK.lastWithId]
      by_cases hr : r.transactionId = t
      · have hnone : AK.lastWithId t rs = none :=
          (AK_lastWithId_none t rs).mpr (fun x hx hxt => hall x hx (hxt.trans hr.symm))
        rw [hnone, if_pos (beq_iff_eq.mpr hr), if_pos (beq_iff_eq.mpr hr)]
        rfl
      · rw [if_neg (by simp [hr])]
        cases hl : AK.lastWithId t rs with
        | some x => rfl
        | none => rw [if_neg (fun hc => hr (beq_iff_eq.mp hc))]

/-- Helper: the first match of an id already stored is unchanged by an upsert
(the upsert only appends). -/
theorem AF_findTx_upsert (s b : List AF.Ticket) (i : String) (t : AF.Ticket)
    (h : AF.findTx s i = some t) :
    AF.findTx (AF.upsertTransactions s b) i = some t := by
  rw [AF.findTx, AF.upsertTransactions, List.find?_append]
  rw [AF.findTx] at h
  rw [h]
  rfl

/-- Stored ticket row of the claim C5 example (parquet variant). -/
def c5old : AK.Row :=
  { transactionId := "T1", validationDate := some ⟨2024, 1, 5⟩, organisationId := "S1"
    customerId := some "A", productId := "P1", label := "ART"
    caTTC := 10, caHT := 8, purchTotalHT := 5, qtyTicket := 1 }

/-- Later upload of the claim C5 example: same `TransactionID`, different
field values. -/
def c5new : AK.Row :=
  { transactionId := "T1", validationDate := some ⟨2024, 2, 7⟩, organisationId := "S1"
    customerId := some "A", productId := "P1", label := "ART"
    caTTC := 99, caHT := 80, purchTotalHT := 5, qtyTicket := 1 }

/-- Stored ticket of the claim C5 witness (DuckDB variant). -/
def c5afOld : AF.Ticket :=
  { transactionId := "T1", validationDate := some ⟨2024, 1, 5⟩, month := some 24289
    organisationId := "S1", customerId := some "A", isClient := true
    caTTC := some 10, caHT := 8, purchTotalHT := 5, qtyTicket := 1
    hasCoupon := false, caPaidWithCouponsHT := 0, estimatedNetMarginHT := 3 }

/-- Re-uploaded ticket of the claim C5 witness: same id, different values. -/
def c5afNew : AF.Ticket :=
  { transactionId := "T1", validationDate := some ⟨2024, 2, 7⟩, month := some 24290
    organisationId := "S1", customerId := some "A", isClient := true
    caTTC := some 99, caHT := 80, purchTotalHT := 5, qtyTicket := 1
    hasCoupon := false, caPaidWithCouponsHT := 0, estimatedNetMarginHT := 75 }

/-- Claim C5 is false on the code: in the parquet variant the merge keeps the
LAST row per `TransactionID` (`drop_duplicates(keep="last")`), so a later
upload carrying the already-stored id replaces the stored record with the
upload's (different) field values. -/
theorem C5_counterexample :
    AK.findRow (AK.ingestTx [c5old] [c5new]) "T1" = some c5new ∧
      c5new.caTTC ≠ c5old.caTTC := by
  constructor
  · decide
  · decide

/-- Claim C5 (amended): in the DuckDB variant the merge is insert-only, so the
first stored record of an id is unchanged by any later upsert; in the parquet
variant the merge keeps exactly the LAST occurrence per `TransactionID`, so a
later upload with the same id replaces the stored record. -/
theorem C5_amended :
    (∀ (s b : List AF.Ticket) (i : String) (t : AF.Ticket),
        AF.findTx s i = some t → AF.findTx (AF.upsertTransactions s b) i = some t) ∧
      ∀ (rows : List AK.Row) (i : String),
        (AK.dedupKeepLast rows).filter (fun r => r.transactionId == i) =
          (AK.lastWithId i rows).toList :=
  ⟨fun s b i t h => AF_findTx_upsert s b i t h, fun rows i => AK_dedup_filter i rows⟩

/-- Claim C5 amended-theorem witness: the DuckDB conclusion evaluated on a
concrete store and re-upload. -/
theorem C5_amended_witness :
    AF.findTx (AF.upsertTransactions [c5afOld] [c5afNew]) "T1" = some c5afOld :=
  C5_amended.1 [c5afOld] [c5afNew] "T1" c5afOld (by decide)

/-! ## Claim C3 -/

/-- Helper: in a strictly sorted month list, the shift-and-rate scan returns,
at month `m`, the rate computed from the greatest listed month below `m`. -/
theorem AF_retentionScan_eq (store : List AF.Ticket) (o : String) (m k : Nat) :
    ∀ (ms : List Nat) (p0 : Option (List String)),
      List.Sorted (fun a b => a < b) ms → m ∈ ms → k ∈ ms → k < m →
      (∀ x ∈ ms, x < m → x ≤ k) →
      AF.retentionScan store o ms p0 m =
        AF.retRate (AF.custSet store o k) (AF.custSet store o m) := by
  intro ms
  induction ms with
  | nil => intro p0 _ hm; cases hm
  | cons a rest ih =>
    intro p0 hs hm hk hkm hmax
    rw [List.sorted_cons] at hs
    by_cases ham : a = m
    · exfalso
      subst ham
      rcases List.mem_cons.mp hk with rfl | hkr
      · exact Nat.lt_irrefl k hkm
      · exact Nat.lt_asymm hkm (hs.1 k hkr)
    · rw [show AF.retentionScan store o (a :: rest) p0 m =
          AF.retentionScan store o rest (some (AF.custSet store o a)) m from by
        simp only [AF.retentionScan]
        rw [if_neg ham]]
      have hm2 : m ∈ rest := by
        rcases List.mem_cons.mp hm with rfl | hm2
        · exact absurd rfl ham
        · exact hm2
      by_cases hak : a = k
      · subst hak
        cases rest with
        | nil => cases hm2
        | cons b rest2 =>
          have hbm : b = m := by
            by_contra hbm
            have hm3 : m ∈ rest2 := by
              rcases List.mem_cons.mp hm2 with rfl | hm3
              · exact absurd rfl hbm
              · exact hm3
            have hb_lt : b < m := by
              have hsr := hs.2
              rw [List.sorted_cons] at hsr
              exact hsr.1 m hm3
            have hble : b ≤ a :=
              hmax b (List.mem_cons_of_mem _ (List.mem_cons_self _ _)) hb_lt
            exact Nat.lt_irrefl a (Nat.lt_of_lt_of_le (hs.1 b (List.mem_cons_self _ _)) hble)
          subst hbm
          simp [AF.retentionScan]
      · have hk2 : k ∈ rest := by
          rcases List.mem_cons.mp hk with rfl | hk2
          · exact absurd rfl hak
          · exact hk2
        exact ih (some (AF.custSet store o a)) hs.2 hm2 hk2 hkm
          (fun x hx hxm => hmax x (List.mem_cons_of_mem _ hx) hxm)

/-- Helper: the sorted active-month list of an organisation is strictly
sorted (its months come from `dedup`, hence are pairwise distinct). -/
theorem AF_monthsSorted_sorted (store : List AF.Ticket) (o : String) :
    List.Sorted (fun a b => a < b)
      (List.insertionSort (fun a b => a ≤ b) (AF.activeMonths store o)) := by
  apply List.Sorted.lt_of_le
  · exact List.sorted_insertionSort _ _
  · exact (List.perm_insertionSort _ _).nodup_iff.mpr (List.nodup_dedup _)

/-- January ticket of the claim C3 gap example: customer "A" at "S1". -/
def c3jan : AF.Ticket :=
  { transactionId := "T1", validationDate := some ⟨2024, 1, 5⟩, month := some 24289
    organisationId := "S1", customerId := some "A", isClient := true
    caTTC := some 50, caHT := 40, purchTotalHT := 25, qtyTicket := 2
    hasCoupon := false, caPaidWithCouponsHT := 0, estimatedNetMarginHT := 15 }

/-- March ticket of the claim C3 gap example: customer "A" again at "S1",
with no activity at all in February. -/
def c3mar : AF.Ticket :=
  { transactionId := "T2", validationDate := some ⟨2024, 3, 9⟩, month := some 24291
    organisationId := "S1", customerId := some "A", isClient := true
    caTTC := some 20, caHT := 16, purchTotalHT := 10, qtyTicket := 1
    hasCoupon := false, caPaidWithCouponsHT := 0, estimatedNetMarginHT := 6 }

/-- Claim C3 is false on the code: with activity only in 2024-01 and 2024-03,
the code pairs March with January (the previous row after the chronological
sort and `shift(1)`) and reports retention 1, while the claim's `S(M-1)` is
the empty February set, which demands NaN. -/
theorem C3_counterexample :
    AF.retentionAF [c3jan, c3mar] "S1" 24291 = some 1 ∧
      AF.retentionSpec [c3jan, c3mar] "S1" 24291 = none := by
  constructor
  · norm_num [AF.retentionAF, AF.retentionScan, AF.activeMonths, AF.custSet, AF.retRate,
      c3jan, c3mar, List.dedup, List.insertionSort, List.filter, List.filterMap]
  · norm_num [AF.retentionSpec, AF.custSet, AF.retRate, c3jan, c3mar, List.filter,
      List.filterMap]

/-- Claim C3 (amended): `Retention_rate(M)` is computed against the most
recent EARLIER month with identified-customer activity at the organisation
(the predecessor row of the chronologically sorted month list), not against
the immediately preceding calendar month; whenever the preceding calendar
month `M-1` itself has activity, the two coincide and the claim's formula
holds. -/
theorem C3_amended (store : List AF.Ticket) (o : String) (m k : Nat)
    (h1 : m ∈ AF.activeMonths store o) (h2 : k ∈ AF.activeMonths store o) (h3 : k < m)
    (h4 : ∀ x ∈ AF.activeMonths store o, x < m → x ≤ k) :
    AF.retentionAF store o m = AF.retRate (AF.custSet store o k) (AF.custSet store o m) ∧
      (k = m - 1 → AF.retentionAF store o m = AF.retentionSpec store o m) := by
  have hmain : AF.retentionAF store o m =
      AF.retRate (AF.custSet store o k) (AF.custSet store o m) := by
    rw [AF.retentionAF]
    refine AF_retentionScan_eq store o m k _ none (AF_monthsSorted_sorted store o) ?_ ?_ h3 ?_
    · rw [List.mem_insertionSort]; exact h1
    · rw [List.mem_insertionSort]; exact h2
    · intro x hx hxm
      exact h4 x ((List.mem_insertionSort _).mp hx) hxm
  refine ⟨hmain, fun hk => ?_⟩
  rw [hmain, AF.retentionSpec, hk]

/-- January ticket of the claim C3 witness: customer "A" at "S1". -/
def c3wA1 : AF.Ticket :=
  { transactionId := "T1", validationDate := some ⟨2024, 1, 5⟩, month := some 24289
    organisationId := "S1", customerId := some "A", isClient := true
    caTTC := some 50, caHT := 40, purchTotalHT := 25, qtyTicket := 2
    hasCoupon := false, caPaidWithCouponsHT := 0, estimatedNetMarginHT := 15 }

/-- January ticket of the claim C3 witness: customer "B" at "S1". -/
def c3wB1 : AF.Ticket :=
  { transactionId := "T2", validationDate := some ⟨2024, 1, 8⟩, month := some 24289
    organisationId := "S1", customerId := some "B", isClient := true
    caTTC := some 30, caHT := 24, purchTotalHT := 12, qtyTicket := 1
    hasCoupon := false, caPaidWithCouponsHT := 0, estimatedNetMarginHT := 12 }

/-- February ticket of the claim C3 witness: customer "A" returns. -/
def c3wA2 : AF.Ticket :=
  { transactionId := "T3", validationDate := some ⟨2024, 2, 3⟩, month := some 24290
    organisationId := "S1", customerId := some "A", isClient := true
    caTTC := some 10, caHT := 8, purchTotalHT := 4, qtyTicket := 1
    hasCoupon := false, caPaidWithCouponsHT := 0, estimatedNetMarginHT := 4 }

/-- February ticket of the claim C3 witness: new customer "C". -/
def c3wC2 : AF.Ticket :=
  { transactionId := "T4", validationDate := some ⟨2024, 2, 21⟩, month := some 24290
    organisationId := "S1", customerId := some "C", isClient := true
    caTTC := some 20, caHT := 16, purchTotalHT := 8, qtyTicket := 1
    hasCoupon := false, caPaidWithCouponsHT := 0, estimatedNetMarginHT := 8 }

/-- Claim C3 amended-theorem witness: with January customers `{A, B}` and
February customers `{A, C}` the theorem applies with `k = M-1` and the rate
evaluates to 1/2, matching the spec example. -/
theorem C3_amended_witness :
    AF.retentionAF [c3wA1, c3wB1, c3wA2, c3wC2] "S1" 24290 = some (1 / 2) := by
  have h := C3_amended [c3wA1, c3wB1, c3wA2, c3wC2] "S1" 24290 24289
    (by decide) (by decide) (by decide) (by decide)
  have h1 : AF.custSet [c3wA1, c3wB1, c3wA2, c3wC2] "S1" 24289 = ["A", "B"] := by decide
  have h2 : AF.custSet [c3wA1, c3wB1, c3wA2, c3wC2] "S1" 24290 = ["A", "C"] := by decide
  have h3 : (["A", "B"].filter fun c => ["A", "C"].contains c) = ["A"] := by decide
  rw [h.1, h1, h2, AF.retRate, h3]
  norm_num

/-! ## Claim C2 -/

/-- Helper: the running maximum is a member of, and an upper bound of, the
value together with the folded list. -/
theorem foldl_max_mem_ub (vs : List ℚ) : ∀ v : ℚ,
    vs.foldl max v ∈ v :: vs ∧ ∀ x ∈ v :: vs, x ≤ vs.foldl max v := by
  induction vs with
  | nil =>
    intro v
    refine ⟨List.mem_singleton.mpr rfl, ?_⟩
    intro x hx
    rw [List.mem_singleton] at hx
    exact hx ▸ le_refl v
  | cons a vs ih =>
    intro v
    have hfold : (a :: vs).foldl max v = vs.foldl max (max v a) := rfl
    obtain ⟨hmem, hub⟩ := ih (max v a)
    constructor
    · rw [hfold]
      rcases List.mem_cons.mp hmem with he | hm
      · rcases max_choice v a with h1 | h1 <;> rw [he, h1]
        · exact List.mem_cons_self _ _
        · exact List.mem_cons_of_mem _ (List.mem_cons_self _ _)
      · exact List.mem_cons_of_mem _ (List.mem_cons_of_mem _ hm)
    · intro x hx
      rw [hfold]
      rcases List.mem_cons.mp hx with rfl | hx2
      · exact le_trans (le_max_left x a) (hub _ (List.mem_cons_self _ _))
      · rcases List.mem_cons.mp hx2 with rfl | hx3
        · exact le_trans (le_max_right v x) (hub _ (List.mem_cons_self _ _))
        · exact hub x (List.mem_cons_of_mem _ hx3)

/-- Helper: a `some` result of the DuckDB `CA_TTC` aggregation is a member of
and an upper bound of the ticket's parsable totals. -/
theorem AF_caTTC_max (table : List AF.TxLine) (t : String) (v : ℚ)
    (h : AF.caTTC table t = some v) :
    v ∈ (AF.ticketLines table t).filterMap (fun l => l.totalAmount) ∧
      ∀ x ∈ (AF.ticketLines table t).filterMap (fun l => l.totalAmount), x ≤ v := by
  rw [AF.caTTC] at h
  cases hl : (AF.ticketLines table t).filterMap (fun l => l.totalAmount) with
  | nil => rw [hl, AF.listMaxAF] at h; cases h
  | cons w ws =>
    rw [hl, AF.listMaxAF] at h
    have hv : ws.foldl max w = v := by injection h
    obtain ⟨hm, hub⟩ := foldl_max_mem_ub ws w
    rw [hv] at hm hub
    exact ⟨hm, hub⟩

/-- Helper: the per-ticket `CA_TTC_ticket` of the deduplicated parquet store
is the `CA_TTC` of the last row with that id (0 when the id is absent). -/
theorem AK_caTTC_dedup (rows : List AK.Row) (t : String) :
    AK.caTTCticket (AK.dedupKeepLast rows) t =
      ((AK.lastWithId t rows).map (fun r => r.caTTC)).getD 0 := by
  rw [AK.caTTCticket, AK_dedup_filter]
  cases AK.lastWithId t rows with
  | none => rfl
  | some r => simp

/-- Source row of the claim C2 example: first line of ticket "T1", total 50. -/
def c2rowA : AK.Row :=
  { transactionId := "T1", validationDate := some ⟨2024, 1, 5⟩, organisationId := "S1"
    customerId := some "A", productId := "P1", label := "ART"
    caTTC := 50, caHT := 40, purchTotalHT := 25, qtyTicket := 2 }

/-- Source row of the claim C2 example: second line of ticket "T1", total 30. -/
def c2rowB : AK.Row :=
  { transactionId := "T1", validationDate := some ⟨2024, 1, 5⟩, organisationId := "S1"
    customerId := some "A", productId := "P2", label := "ART2"
    caTTC := 30, caHT := 20, purchTotalHT := 10, qtyTicket := 1 }

/-- First line of the claim C2 witness table (DuckDB variant). -/
def c2afLineA : AF.TxLine :=
  { ticketNumber := "T1", totalAmount := some 50, label := some "ART"
    validationDate := some ⟨2024, 1, 5⟩, organisationId := "S1", customerId := some "A"
    lineGrossAmount := some 40, lineCost := some 25, quantity := some 2
    lineType := LineType.productSale }

/-- Second line of the claim C2 witness table (DuckDB variant). -/
def c2afLineB : AF.TxLine :=
  { ticketNumber := "T1", totalAmount := some 30, label := some "ART2"
    validationDate := some ⟨2024, 1, 5⟩, organisationId := "S1", customerId := some "A"
    lineGrossAmount := some 20, lineCost := some 10, quantity := some 1
    lineType := LineType.productSale }

/-- Claim C2 is false on the code: in the parquet variant, ingesting a ticket
whose source lines carry totals 50 then 30 persists a per-ticket `CA_TTC` of
30 — the surviving LAST line's value — not the maximum 50 of the source lines
(and not their sum either). -/
theorem C2_counterexample :
    AK.caTTCticket (AK.ingestTx [] [c2rowA, c2rowB]) "T1" = 30 ∧
      max c2rowA.caTTC c2rowB.caTTC = 50 ∧ (30 : ℚ) ≠ 50 := by
  refine ⟨?_, ?_, by norm_num⟩
  · norm_num [AK.caTTCticket, AK.ingestTx, AK.dedupKeepLast, c2rowA, c2rowB, List.filter]
  · norm_num [c2rowA, c2rowB, max_def]

/-- Claim C2 (amended): in the DuckDB variant the persisted `CA_TTC` is the
maximum of the ticket's parsable `TotalAmount` cells (a member of them and an
upper bound, hence never a sum exceeding the largest cell); in the parquet
variant the merge keeps only the LAST stored line per `TransactionID`, so the
per-ticket `CA_TTC` is that last line's value. -/
theorem C2_amended :
    (∀ (table : List AF.TxLine) (t : String) (v : ℚ),
        AF.caTTC table t = some v →
          v ∈ (AF.ticketLines table t).filterMap (fun l => l.totalAmount) ∧
            ∀ x ∈ (AF.ticketLines table t).filterMap (fun l => l.totalAmount), x ≤ v) ∧
      ∀ (rows : List AK.Row) (t : String),
        AK.caTTCticket (AK.dedupKeepLast rows) t =
          ((AK.lastWithId t rows).map (fun r => r.caTTC)).getD 0 :=
  ⟨fun table t v h => AF_caTTC_max table t v h, fun rows t => AK_caTTC_dedup rows t⟩

/-- Claim C2 amended-theorem witness: the DuckDB conclusion evaluated on the
concrete two-line ticket (totals 50 and 30, `CA_TTC = 50`). -/
theorem C2_amended_witness :
    (50 : ℚ) ∈ (AF.ticketLines [c2afLineA, c2afLineB] "T1").filterMap
        (fun l => l.totalAmount) ∧
      ∀ x ∈ (AF.ticketLines [c2afLineA, c2afLineB] "T1").filterMap
          (fun l => l.totalAmount), x ≤ 50 :=
  C2_amended.1 [c2afLineA, c2afLineB] "T1" 50 (by
    norm_num [AF.caTTC, AF.listMaxAF, AF.ticketLines, c2afLineA, c2afLineB, List.filter,
      List.filterMap_cons, List.filterMap_nil, List.foldl, max_def])

/-! ## Claim C6 -/

/-- Rewrite of a table's spec-level line types — a field the embedded
aggregations never read. -/
def relabelAF (f : AF.TxLine → LineType) (table : List AF.TxLine) : List AF.TxLine :=
  table.map (fun l => { l with lineType := f l })

/-- Per-ticket sum over PRODUCT_SALE lines only, exactly as the claim words
the aggregation. -/
def productOnlySumSpec (f : AF.TxLine → Option ℚ) (table : List AF.TxLine) (t : String) : ℚ :=
  (((AF.ticketLines table t).filter
      (fun l => l.lineType == LineType.productSale)).filterMap f).sum

/-- Product line of the claim C6 example (gross 40, cost 25). -/
def c6prod : AF.TxLine :=
  { ticketNumber := "T1", totalAmount := some 50, label := some "ART"
    validationDate := some ⟨2024, 1, 5⟩, organisationId := "S1", customerId := some "A"
    lineGrossAmount := some 40, lineCost := some 25, quantity := some 2
    lineType := LineType.productSale }

/-- Tender line of the claim C6 example carrying parsable gross 10 and
cost 6. -/
def c6tender : AF.TxLine :=
  { ticketNumber := "T1", totalAmount := some 50, label := some "CB"
    validationDate := some ⟨2024, 1, 5⟩, organisationId := "S1", customerId := some "A"
    lineGrossAmount := some 10, lineCost := some 6, quantity := some 1
    lineType := LineType.tender }

/-- Claim C6 is false on the code: the per-ticket sums range over ALL lines of
the ticket with parsable values — there is no PRODUCT_SALE filter — so a
TENDER line with numeric cells contributes: `CA_HT` is 50, not the 40 the
product-only sum gives. -/
theorem C6_counterexample :
    AF.caHT [c6prod, c6tender] "T1" = 50 ∧
      productOnlySumSpec (fun l => l.lineGrossAmount) [c6prod, c6tender] "T1" = 40 ∧
      AF.purchHT [c6prod, c6tender] "T1" = 31 ∧
      productOnlySumSpec (fun l => l.lineCost) [c6prod, c6tender] "T1" = 25 ∧
      (50 : ℚ) ≠ 40 := by
  have hfil : (AF.ticketLines [c6prod, c6tender] "T1").filter
      (fun l => l.lineType == LineType.productSale) = [c6prod] := by decide
  refine ⟨?_, ?_, ?_, ?_, by norm_num⟩
  · norm_num [AF.caHT, AF.ticketLines, c6prod, c6tender, List.filter,
      List.filterMap_cons, List.filterMap_nil]
  · rw [productOnlySumSpec, hfil]
    norm_num [c6prod, List.filterMap_cons, List.filterMap_nil]
  · norm_num [AF.purchHT, AF.ticketLines, c6prod, c6tender, List.filter,
      List.filterMap_cons, List.filterMap_nil]
  · rw [productOnlySumSpec, hfil]
    norm_num [c6prod, List.filterMap_cons, List.filterMap_nil]

/-- Claim C6 (amended): the three per-ticket sums are computed over every line
of the ticket whose cell parses as numeric, with no line-type filter — they
are invariant under any rewriting of the spec-level line types, and any line
of the ticket contributes exactly its parsed cell (0 when unparsable),
whatever its type. -/
theorem C6_amended :
    (∀ (f : AF.TxLine → LineType) (table : List AF.TxLine) (t : String) (hq : Bool),
        AF.caHT (relabelAF f table) t = AF.caHT table t ∧
          AF.purchHT (relabelAF f table) t = AF.purchHT table t ∧
          AF.qtyTicket hq (relabelAF f table) t = AF.qtyTicket hq table t) ∧
      ∀ (l : AF.TxLine) (table : List AF.TxLine) (t : String),
        l.ticketNumber = t →
          AF.caHT (l :: table) t = (l.lineGrossAmount.getD 0) + AF.caHT table t := by
  constructor
  · intro f table t hq
    have hlines : AF.ticketLines (relabelAF f table) t =
        (AF.ticketLines table t).map (fun l => { l with lineType := f l }) := by
      simp only [AF.ticketLines, relabelAF, List.filter_map]
      exact congrArg _ (List.filter_congr (fun x _ => rfl))
    have hany : (relabelAF f table).any (fun l => l.quantity.isSome) =
        table.any (fun l => l.quantity.isSome) := by
      rw [relabelAF, List.any_map]
      rfl
    refine ⟨?_, ?_, ?_⟩
    · rw [AF.caHT, AF.caHT, hlines, List.filterMap_map]
      exact congrArg List.sum (List.filterMap_congr (fun x _ => rfl))
    · rw [AF.purchHT, AF.purchHT, hlines, List.filterMap_map]
      exact congrArg List.sum (List.filterMap_congr (fun x _ => rfl))
    · rw [AF.qtyTicket, AF.qtyTicket, hany, hlines]
      by_cases hcond : (hq && table.any fun l => l.quantity.isSome) = true
      · rw [if_pos hcond, if_pos hcond, List.filterMap_map]
        exact congrArg List.sum (List.filterMap_congr (fun x _ => rfl))
      · rw [if_neg hcond, if_neg hcond, List.length_map]
  · intro l table t h
    cases hg : l.lineGrossAmount with
    | none => simp [AF.caHT, AF.ticketLines, List.filter_cons, h, hg]
    | some v => simp [AF.caHT, AF.ticketLines, List.filter_cons, h, hg]

/-- Claim C6 amended-theorem witness: the contribution conclusion evaluated on
the concrete tender line (its gross 10 enters the ticket's `CA_HT`). -/
theorem C6_amended_witness :
    AF.caHT [c6tender, c6prod] "T1" =
      (c6tender.lineGrossAmount.getD 0) + AF.caHT [c6prod] "T1" :=
  C6_amended.2 c6tender [c6prod] "T1" (by decide)

/-! ## Claim C7 -/

/-- Product line of the claim C7 example (gross 40, total 50). -/
def c7prod : AF.TxLine :=
  { ticketNumber := "T1", totalAmount := some 50, label := some "ART"
    validationDate := some ⟨2024, 1, 5⟩, organisationId := "S1", customerId := some "A"
    lineGrossAmount := some 40, lineCost := some 25, quantity := some 2
    lineType := LineType.productSale }

/-- Tender line of the claim C7 example labelled `COUPON`, carrying the ticket
total 50 and no gross amount. -/
def c7tender : AF.TxLine :=
  { ticketNumber := "T1", totalAmount := some 50, label := some "COUPON"
    validationDate := some ⟨2024, 1, 5⟩, organisationId := "S1", customerId := some "A"
    lineGrossAmount := none, lineCost := none, quantity := none
    lineType := LineType.tender }

/-- Claim C7 is false on the code: for a couponed ticket with
`total_incl_tax = 50` and `total_excl_tax = 40`, the persisted
`CA_paid_with_coupons_HT` is 40 — the code charges `CA_HT`, not the
`total_incl_tax` the claim states. -/
theorem C7_counterexample :
    (AF.mkTicket true [c7prod, c7tender] "T1").hasCoupon = true ∧
      (AF.mkTicket true [c7prod, c7tender] "T1").caTTC = some 50 ∧
      (AF.mkTicket true [c7prod, c7tender] "T1").caPaidWithCouponsHT = 40 ∧
      (40 : ℚ) ≠ 50 := by
  have hc : AF.hasCouponT [c7prod, c7tender] "T1" = true := by decide
  refine ⟨hc, ?_, ?_, by norm_num⟩
  · show AF.caTTC [c7prod, c7tender] "T1" = some 50
    norm_num [AF.caTTC, AF.listMaxAF, AF.ticketLines, c7prod, c7tender,
      List.filter, List.filterMap_cons, List.filterMap_nil, List.foldl, max_def]
  · show (if AF.hasCouponT [c7prod, c7tender] "T1" = true then
        AF.caHT [c7prod, c7tender] "T1" else 0) = 40
    rw [if_pos hc]
    norm_num [AF.caHT, AF.ticketLines, c7prod, c7tender, List.filter,
      List.filterMap_cons, List.filterMap_nil]

/-- Claim C7 (amended): `Has_Coupon` is true iff SOME line of the ticket (of
any type) has a label whose upper-cased text CONTAINS `COUPON` as a substring,
and `CA_paid_with_coupons_HT` equals the ticket's `CA_HT` (total excluding
tax) when `Has_Coupon` holds, else 0. -/
theorem C7_amended (hq : Bool) (table : List AF.TxLine) (t : String) :
    ((AF.mkTicket hq table t).hasCoupon = true ↔
        ∃ l ∈ AF.ticketLines table t, AF.containsCoupon (l.label.getD "") = true) ∧
      (AF.mkTicket hq table t).caPaidWithCouponsHT =
        (if (AF.mkTicket hq table t).hasCoupon then AF.caHT table t else 0) := by
  constructor
  · show AF.hasCouponT table t = true ↔ _
    rw [AF.hasCouponT, List.any_eq_true]
  · rfl

/-! ## Claim C9 -/

/-- Claim C9: every ratio KPI cell with a zero denominator is NaN — the
guarded `np.where(denominator > 0, ..., np.nan)` pattern of `compute_kpi`
covers the margin rates, the customer association rate, the recurrence, the
retention rate, both coupon redemption rates, the voucher share and all the
average-basket cells; the computation is total (never raises) and never
substitutes 0 for an undefined ratio. -/
theorem C9_division_safety (store : List AF.Ticket) (cstore : List AF.Coupon)
    (m : Nat) (o : String) :
    (AF.transactionsN store m o = 0 →
        AF.tauxAssoc store m o = none ∧ AF.panierMoyenHT store m o = none) ∧
      (AF.caHTsum store m o = 0 →
        AF.tauxMargeAvant store m o = none ∧ AF.tauxMargeApres store cstore m o = none ∧
          AF.tauxCAbons store m o = none ∧ AF.voucherShare store m o = none) ∧
      (AF.clientsN store m o = 0 → AF.recurrenceKPI store m o = none) ∧
      (AF.montantEmisOpt cstore m o = some 0 → AF.tauxBonsMontant cstore m o = none) ∧
      (AF.couponEmisOpt cstore m o = none → AF.tauxBonsQte cstore m o = none) ∧
      (∀ cur : List String, AF.retRate [] cur = none) ∧
      (AF.txClientN store m o = 0 → AF.panierClient store m o = none) ∧
      (AF.txNonClientN store m o = 0 → AF.panierNonClient store m o = none) ∧
      (AF.txAvecN store m o = 0 → AF.panierAvec store m o = none) ∧
      (AF.txSansN store m o = 0 → AF.panierSans store m o = none) := by
  refine ⟨?_, ?_, ?_, ?_, ?_, ?_, ?_, ?_, ?_, ?_⟩
  · intro h
    exact ⟨by simp [AF.tauxAssoc, h], by simp [AF.panierMoyenHT, h]⟩
  · intro h
    refine ⟨?_, ?_, ?_, ?_⟩
    · simp [AF.tauxMargeAvant, h]
    · simp [AF.tauxMargeApres, h]
    · simp [AF.tauxCAbons, h]
    · simp [AF.voucherShare, AF.tauxCAbons, h]
  · intro h; simp [AF.recurrenceKPI, h]
  · intro h; simp [AF.tauxBonsMontant, h]
  · intro h; simp [AF.tauxBonsQte, h]
  · intro cur; rfl
  · intro h; simp [AF.panierClient, h]
  · intro h; simp [AF.panierNonClient, h]
  · intro h; simp [AF.panierAvec, h]
  · intro h; simp [AF.panierSans, h]

/-- Emitted coupon of the claim C9 witness: `Amount_Initial = 0`, so the
amount denominator of its `(2024-01, "S1")` group is exactly zero. -/
def c9emitZero : AF.Coupon :=
  { couponId := "C9", organisationId := "S1", useDate := none
    emissionDate := some ⟨2024, 1, 2⟩, monthUse := none, monthEmit := some 24289
    amountInitial := 0, amountRemaining := 0, valueUsedLine := 0 }

/-- Claim C9 witness: every conclusion evaluated on concrete inputs whose
denominators are zero (an empty ticket store; a coupon store whose only
emitted amount is 0 in 2024-01 and which has no row at all in 2024-02). -/
theorem C9_division_safety_witness :
    AF.tauxAssoc [] 24289 "S1" = none ∧ AF.panierMoyenHT [] 24289 "S1" = none ∧
      AF.tauxMargeAvant [] 24289 "S1" = none ∧
      AF.tauxMargeApres [] [c9emitZero] 24289 "S1" = none ∧
      AF.tauxCAbons [] 24289 "S1" = none ∧ AF.voucherShare [] 24289 "S1" = none ∧
      AF.recurrenceKPI [] 24289 "S1" = none ∧
      AF.tauxBonsMontant [c9emitZero] 24289 "S1" = none ∧
      AF.tauxBonsQte [c9emitZero] 24290 "S1" = none ∧
      AF.retRate [] ["A"] = none ∧
      AF.panierClient [] 24289 "S1" = none ∧ AF.panierNonClient [] 24289 "S1" = none ∧
      AF.panierAvec [] 24289 "S1" = none ∧ AF.panierSans [] 24289 "S1" = none := by
  obtain ⟨a1, a2, a3, a4, a5, a6, a7, a8, a9, a10⟩ :=
    C9_division_safety [] [c9emitZero] 24289 "S1"
  obtain ⟨-, -, -, -, b5, -, -, -, -, -⟩ :=
    C9_division_safety [] [c9emitZero] 24290 "S1"
  have hm : AF.montantEmisOpt [c9emitZero] 24289 "S1" = some 0 := by
    norm_num [AF.montantEmisOpt, AF.emitRows, c9emitZero, List.filter]
  have hq : AF.couponEmisOpt [c9emitZero] 24290 "S1" = none := by decide
  obtain ⟨w1, w2⟩ := a1 rfl
  obtain ⟨w3, w4, w5, w6⟩ := a2 rfl
  exact ⟨w1, w2, w3, w4, w5, w6, a3 rfl, a4 hm, b5 hq, a6 ["A"], a7 rfl, a8 rfl,
    a9 rfl, a10 rfl⟩

/-! ## Claim C10 -/

/-- Claim C10: when the transactions file has no `Quantity` column, or that
column holds no parsable numeric value at all, the fallback
`groupby(c_txid)[c_txid].size()` silently sets each ticket's `Qty_Ticket` to
the NUMBER OF SOURCE LINES of the ticket, so quantity-derived KPI cells are
then computed from line counts. -/
theorem C10_qty_fallback (hq : Bool) (table : List AF.TxLine) (t : String)
    (h : hq = false ∨ ∀ l ∈ table, l.quantity = none) :
    (AF.mkTicket hq table t).qtyTicket = ((AF.ticketLines table t).length : ℚ) := by
  show AF.qtyTicket hq table t = _
  rcases h with rfl | hall
  · simp [AF.qtyTicket]
  · have hany : table.any (fun l => l.quantity.isSome) = false := by
      rw [List.any_eq_false]
      intro l hl
      rw [hall l hl]
      simp
    simp [AF.qtyTicket, hany]

/-- First line of the claim C10 witness (unparsable quantity cell). -/
def c10lineA : AF.TxLine :=
  { ticketNumber := "T1", totalAmount := some 50, label := some "ART"
    validationDate := some ⟨2024, 1, 5⟩, organisationId := "S1", customerId := some "A"
    lineGrossAmount := some 40, lineCost := some 25, quantity := none
    lineType := LineType.productSale }

/-- Second line of the claim C10 witness (unparsable quantity cell). -/
def c10lineB : AF.TxLine :=
  { ticketNumber := "T1", totalAmount := some 50, label := some "ART2"
    validationDate := some ⟨2024, 1, 5⟩, organisationId := "S1", customerId := some "A"
    lineGrossAmount := some 20, lineCost := some 10, quantity := none
    lineType := LineType.productSale }

/-- Claim C10 witness: a two-line ticket with no parsable quantity at all gets
`Qty_Ticket = 2`, its line count. -/
theorem C10_qty_fallback_witness :
    (AF.mkTicket true [c10lineA, c10lineB] "T1").qtyTicket = 2 := by
  rw [C10_qty_fallback true [c10lineA, c10lineB] "T1" (Or.inr (by decide))]
  norm_num [AF.ticketLines, c10lineA, c10lineB, List.filter]

/-! ## Claim C8 -/

/-- First ticket row of the claim C8 failing input: customer "A", 2024-01. -/
def c8row1 : AK.Row :=
  { transactionId := "T1", validationDate := some ⟨2024, 1, 5⟩, organisationId := "S1"
    customerId := some "A", productId := "P1", label := "X"
    caTTC := 10, caHT := 8, purchTotalHT := 5, qtyTicket := 1 }

/-- Second ticket row of the claim C8 failing input: the SAME customer "A"
buys again in the same first month 2024-01. -/
def c8row2 : AK.Row :=
  { transactionId := "T2", validationDate := some ⟨2024, 1, 20⟩, organisationId := "S1"
    customerId := some "A", productId := "P2", label := "Y"
    caTTC := 6, caHT := 5, purchTotalHT := 2, qtyTicket := 1 }

/-- Claim C8 names a code bug of the parquet variant: its `Nouveau_client`
aggregation `(s == s.name[0]).sum()` counts TICKET ROWS of new customers, not
distinct customers.  At the failing input — one customer with two tickets in
their first month — the code reports 2 new customers (the claim demands the
distinct count 1) and a negative -1 returning-customer count. -/
theorem C8_code_eval :
    AK.nouveauAK (AK.ingestTx [] [c8row1, c8row2]) 24289 "S1" = 2 ∧
      AK.nouveauDistinctSpec (AK.ingestTx [] [c8row1, c8row2]) 24289 "S1" = 1 ∧
      AK.clientsAK (AK.ingestTx [] [c8row1, c8row2]) 24289 "S1" = 1 ∧
      AK.returningAK (AK.ingestTx [] [c8row1, c8row2]) 24289 "S1" = -1 := by
  refine ⟨?_, ?_, ?_, ?_⟩ <;> decide
